import Mathlib

set_option maxRecDepth 8192

/-!
Verification of the property-search orchestration pipeline
(`ai_real_estate_agent_dubai.py`) against its design specification.

The Python module is shallowly embedded below:
* Python runtime values are modelled by `PyVal` (dicts as association
  lists, first binding wins), with Python truthiness as `PyVal.truthy`.
* fallible operations (`d[key]` subscripting, attribute access) return
  `Except String PyVal`, the `error` case standing for a raised
  `KeyError` / `TypeError` / `AttributeError`.
* the external services are parameters: `extract` stands for
  `firecrawl.extract` and `gen` for `agent.run(...).content`; the
  instructions actually sent to `gen` are recorded in `AgentRun.genCalls`.
* `max_price` is a Python float that only ever appears interpolated into
  f-strings; it is modelled by its rendered decimal string.
* `str.lower()` is modelled on its ASCII behaviour (`Char.toLower`), and
  `str.strip()` on the ASCII whitespace characters Python strips.
-/

/-- Python runtime values, as far as this module manipulates them.
`pyobj` stands for any non-dict object (for instance a typed
`FirecrawlResponse` instance), identified by its class name. -/
inductive PyVal where
  | pynone : PyVal
  | pybool : Bool → PyVal
  | pyint : Int → PyVal
  | pystr : String → PyVal
  | pylist : List PyVal → PyVal
  | pydict : List (String × PyVal) → PyVal
  | pyobj : String → PyVal

/-- Python truthiness: `bool(v)`. -/
def PyVal.truthy : PyVal → Bool
  | .pynone => false
  | .pybool b => b
  | .pyint n => n != 0
  | .pystr s => s != ""
  | .pylist [] => false
  | .pylist (_ :: _) => true
  | .pydict [] => false
  | .pydict (_ :: _) => true
  | .pyobj _ => true

/-- Lookup in a dict modelled as an association list (first binding wins). -/
def dictLookup : List (String × PyVal) → String → Option PyVal
  | [], _ => Option.none
  | (k, v) :: rest, key => if k = key then Option.some v else dictLookup rest key

/-- Python `dict.get(key, default)` on an association list. -/
def pyGetD (fields : List (String × PyVal)) (key : String) (dflt : PyVal) : PyVal :=
  (dictLookup fields key).getD dflt

/-- Python subscripting `v[key]`: raises `KeyError` on a missing key and
`TypeError` on a non-dict value. -/
def pyIndex : PyVal → String → Except String PyVal
  | .pydict fields, key =>
    match dictLookup fields key with
    | Option.some v => Except.ok v
    | Option.none => Except.error ("KeyError: " ++ key)
  | _, _ => Except.error ("TypeError: value is not subscriptable")

/-- Calling the method `v.get(key, dflt)`: raises `AttributeError` when `v`
is not a dict. -/
def pyGetMethod : PyVal → String → PyVal → Except String PyVal
  | .pydict fields, key, dflt => Except.ok (pyGetD fields key dflt)
  | _, _, _ => Except.error ("AttributeError: get")

/-- The guard `isinstance(raw_response, dict) and raw_response.get('success')`
shared by both pipelines (lines 90 and 165). -/
def isSuccessResponse : PyVal → Bool
  | .pydict fields => (pyGetD fields ("success") PyVal.pynone).truthy
  | _ => false

/-- The normalization step of `find_properties` (lines 90-93):
`properties = raw_response['data'].get('properties', [])` on a success
response, `properties = []` otherwise. -/
def normalizeProperties (raw : PyVal) : Except String PyVal :=
  if isSuccessResponse raw then
    (pyIndex raw ("data")).bind fun d => pyGetMethod d ("properties") (PyVal.pylist [])
  else
    Except.ok (PyVal.pylist [])

/-- ASCII whitespace stripped by Python `str.strip()`:
space, tab, newline, carriage return, vertical tab, form feed. -/
def isPySpace (c : Char) : Bool :=
  c == ' ' || c == '\t' || c == '\n' || c == '\r' || c == Char.ofNat 11 || c == Char.ofNat 12

/-- Python `str.strip()` (ASCII whitespace). -/
def pyStrip (s : String) : String :=
  String.mk (((s.data.dropWhile isPySpace).reverse.dropWhile isPySpace).reverse)

/-- Python `str.lower()` restricted to its ASCII behaviour. -/
def pyLower (s : String) : String :=
  String.mk (s.data.map Char.toLower)

/-- Python `str.replace(old, new)` for the single-character arguments used
in the module (every occurrence of `old` becomes `new`). -/
def pyReplaceChar (s : String) (old new : Char) : String :=
  String.mk (s.data.map fun c => if c == old then new else c)

/-- The URL-segment normalization `x.strip().lower().replace(" ", "-")`
applied to `city` (lines 60, 147) and `property_type` (line 61). -/
def formatSegment (s : String) : String :=
  pyReplaceChar (pyLower (pyStrip s)) ' ' '-'

/-- The single property-search URL of line 64. -/
def propertyUrl (city ptype : String) : String :=
  "https://www.propertyfinder.ae/en/buy/dubai/" ++ formatSegment ptype
    ++ "-for-sale-" ++ formatSegment city ++ ".html"

/-- The `urls` list of lines 63-67 (the two other portals are commented out
in the source, so the list is a singleton). -/
def propertyUrls (city ptype : String) : List String :=
  [propertyUrl city ptype]

/-- The single area-insights URL of line 149. -/
def trendUrl (city : String) : String :=
  "https://www.propertyfinder.ae/en/area-insights/dubai/" ++ formatSegment city

/-- The `trndurl` list of lines 148-150. -/
def trendUrls (city : String) : List String :=
  [trendUrl city]

/-- A reference to a pydantic-generated JSON schema
(`SomeModel.model_json_schema()`), identified by the model class name;
the generation is deterministic per class and external to the module. -/
structure SchemaRef where
  className : String
  deriving DecidableEq

/-- `PropertiesResponse.model_json_schema()` (line 84). -/
def propertiesResponseSchema : SchemaRef := ⟨"PropertiesResponse"⟩

/-- `LocationsResponse.model_json_schema()` (line 162). -/
def locationsResponseSchema : SchemaRef := ⟨"LocationsResponse"⟩

/-- The argument bundle of a `firecrawl.extract` call: `urls` plus the
`params` dict holding the prompt and the schema. -/
structure ExtractArgs where
  urls : List String
  prompt : String
  schema : SchemaRef
  deriving DecidableEq

/-- The property-extraction f-string prompt of lines 73-83, with the
interpolated values as parameters (`maxPrice` is the rendered float). -/
def propertyPrompt (city maxPrice category ptype : String) : String :=
  "Extract ONLY 10 OR LESS different " ++ category ++ " " ++ ptype
    ++ " along with property link from " ++ city
    ++ " that cost less than " ++ maxPrice
    ++ " millions.\n                \n                Requirements:\n                - "
    ++ "Property Category: " ++ category
    ++ " properties only\n                - "
    ++ "Property Type: " ++ ptype
    ++ " only\n                - "
    ++ "Location: " ++ city
    ++ "\n                - "
    ++ "Maximum Price: " ++ maxPrice ++ " Millions"
    ++ "\n                - Include complete property details with exact location\n                - IMPORTANT: "
    ++ "Return data for at least 3 different properties. MAXIMUM 10. "
    ++ "must mix the property list from all urls"
    ++ ".\n                - Format as a list of properties with their respective details\n                "

/-- The trend-extraction prompt of lines 155-161: a plain (non-f) string
literal, hence a constant. -/
def trendPrompt : String :=
  "Extract price trends data for ALL major localities in the city. \n            IMPORTANT: \n            - "
    ++ "Return data for at least 5-10 different localities"
    ++ "\n            - "
    ++ "Include both premium and affordable areas"
    ++ "\n            - Do not skip any locality mentioned in the source\n            - Format as a list of locations with their respective data\n            "

/-- The full argument bundle of the `firecrawl.extract` call in
`find_properties` (lines 70-86). -/
def propertyExtractArgs (city maxPrice category ptype : String) : ExtractArgs :=
  ⟨propertyUrls city ptype, propertyPrompt city maxPrice category ptype, propertiesResponseSchema⟩

/-- The full argument bundle of the `firecrawl.extract` call in
`get_location_trends` (lines 152-163). -/
def trendExtractArgs (city : String) : ExtractArgs :=
  ⟨trendUrls city, trendPrompt, locationsResponseSchema⟩

mutual

/-- Python `repr()` on the modelled values (string quoting simplified to
single quotes without escaping). -/
def pyRepr : PyVal → String
  | .pynone => "None"
  | .pybool true => "True"
  | .pybool false => "False"
  | .pyint n => toString n
  | .pystr s => "\x27" ++ s ++ "\x27"
  | .pylist items => "[" ++ pyReprSeq items ++ "]"
  | .pydict fields => "\x7b" ++ pyReprFields fields ++ "\x7d"
  | .pyobj ty => "<" ++ ty ++ " object>"

/-- `repr` of list elements joined by a comma and a space. -/
def pyReprSeq : List PyVal → String
  | [] => ""
  | [v] => pyRepr v
  | v :: w :: rest => pyRepr v ++ ", " ++ pyReprSeq (w :: rest)

/-- `repr` of dict entries joined by a comma and a space. -/
def pyReprFields : List (String × PyVal) → String
  | [] => ""
  | [(k, v)] => "\x27" ++ k ++ "\x27: " ++ pyRepr v
  | (k, v) :: f :: rest => "\x27" ++ k ++ "\x27: " ++ pyRepr v ++ ", " ++ pyReprFields (f :: rest)

end

/-- Python `str()`, as used by f-string interpolation: strings render
verbatim, every other value via `repr`. -/
def pyToStr : PyVal → String
  | .pystr s => s
  | v => pyRepr v

/-- The analysis f-string instruction of lines 99-140, with the
interpolated `properties` value and the criteria as parameters. -/
def analysisInstruction (properties : PyVal) (maxPrice category ptype : String) : String :=
  "As a real estate expert, analyze these properties and market trends:\n\n            Properties Found in json format:\n            "
    ++ pyToStr properties
    ++ "\n\n            **IMPORTANT INSTRUCTIONS:**\n            1. ONLY analyze properties from the above JSON data that match the user\x27s requirements:\n               - Property Category: "
    ++ category
    ++ "\n               - Property Type: " ++ ptype
    ++ "\n               - Maximum Price: " ++ maxPrice
    ++ " millions\n            2. DO NOT create new categories or property types\n            3. From the matching properties, select 5-6 properties with prices closest to "
    ++ maxPrice
    ++ " millions\n\n            Please provide your analysis in this format:\n            \n            🏠 SELECTED PROPERTIES\n            • List only 5-6 best matching properties with prices closest to "
    ++ maxPrice
    ++ " millions\n            • For each property include:\n              - Name and Location along with link to the property as cta button\n              - Price (with value analysis)\n              - Key Features\n              - Pros and Cons\n\n            💰 BEST VALUE ANALYSIS\n            • Compare the selected properties based on:\n              - Price per sq ft\n              - Location advantage\n              - Amenities offered\n\n            📍 LOCATION INSIGHTS\n            • Specific advantages of the areas where selected properties are located\n\n            💡 RECOMMENDATIONS\n            • Top 3 properties from the selection with reasoning\n            • Investment potential\n            • Points to consider before purchase\n\n            🤝 NEGOTIATION TIPS\n            • Property-specific negotiation strategies\n\n            Format your response in a clear, structured way using the above sections.\n            "

/-- The trend-analysis f-string instruction of lines 169-198. -/
def trendAnalysisInstruction (city : String) (locations : PyVal) : String :=
  "As a real estate expert, analyze these location price trends for " ++ city
    ++ ":\n\n                "
    ++ pyToStr locations
    ++ "\n\n                Please provide:\n                1. A bullet-point summary of the price trends for each location\n                2. Identify the top 3 locations with:\n                   - Highest price appreciation\n                   - Best rental yields\n                   - Best value for money\n                3. Investment recommendations:\n                   - Best locations for long-term investment\n                   - Best locations for rental income\n                   - Areas showing emerging potential\n                4. Specific advice for investors based on these trends\n\n                Format the response as follows:\n                \n                📊 LOCATION TRENDS SUMMARY\n                • [Bullet points for each location]\n\n                🏆 TOP PERFORMING AREAS\n                • [Bullet points for best areas]\n\n                💡 INVESTMENT INSIGHTS\n                • [Bullet points with investment advice]\n\n                🎯 RECOMMENDATIONS\n                • [Bullet points with specific recommendations]\n                "

/-- The observable outcome of one of the two methods: the instructions it
sent to the text-generation capability, in order, and its return value. -/
structure AgentRun where
  genCalls : List String
  output : String
  deriving DecidableEq

/-- `PropertyFindingAgent.find_properties` (lines 52-143), with the two
external services as parameters: `extract` answers the firecrawl call and
`gen` answers `agent.run(...).content`. -/
def findProperties (extract : ExtractArgs → PyVal) (gen : String → String)
    (city maxPrice category ptype : String) : Except String AgentRun :=
  let raw := extract (propertyExtractArgs city maxPrice category ptype)
  (normalizeProperties raw).bind fun properties =>
    let instr := analysisInstruction properties maxPrice category ptype
    Except.ok ⟨[instr], gen instr⟩

/-- `PropertyFindingAgent.get_location_trends` (lines 145-203). -/
def getLocationTrends (extract : ExtractArgs → PyVal) (gen : String → String)
    (city : String) : Except String AgentRun :=
  let raw := extract (trendExtractArgs city)
  if isSuccessResponse raw then
    (pyIndex raw ("data")).bind fun d =>
      (pyGetMethod d ("locations") (PyVal.pylist [])).bind fun locations =>
        let instr := trendAnalysisInstruction city locations
        Except.ok ⟨[instr], gen instr⟩
  else
    Except.ok ⟨[], "No price trends data available"⟩

/-- Outcome of the search button handler in `main`. -/
inductive SearchOutcome where
  | emptyCityError : SearchOutcome
  | results : String → String → SearchOutcome
  | caughtError : String → SearchOutcome
  deriving DecidableEq

/-- The search button handler of `main` (lines 292-326): the empty-city
precondition check, then `find_properties` followed by
`get_location_trends`, any raised error being caught and reported. -/
def runSearch (extract : ExtractArgs → PyVal) (gen : String → String)
    (city maxPrice category ptype : String) : SearchOutcome :=
  if city = "" then SearchOutcome.emptyCityError
  else
    match findProperties extract gen city maxPrice category ptype with
    | Except.error e => SearchOutcome.caughtError e
    | Except.ok propertyResults =>
      match getLocationTrends extract gen city with
      | Except.error e => SearchOutcome.caughtError e
      | Except.ok trendResults =>
        SearchOutcome.results propertyResults.output trendResults.output

/-! Specification-side notions used to state the claims. -/

/-- `sub` occurs contiguously inside `s`. -/
def ContainsSub (s sub : String) : Prop :=
  sub.data <:+: s.data

instance (s sub : String) : Decidable (ContainsSub s sub) :=
  inferInstanceAs (Decidable (sub.data <:+: s.data))

/-- The success-envelope shape of the design spec: a dict whose `success`
entry is truthy (a missing key counting as `None`). -/
def isSuccessEnvelope (r : PyVal) : Prop :=
  ∃ fields, r = PyVal.pydict fields ∧ (pyGetD fields ("success") PyVal.pynone).truthy = true

/-- Claim-side URL-segment normalization, read off the spec sentence:
lowercase, trim, and collapse each run of internal whitespace to one
hyphen.  `collapseAux` tracks whether the previous character was part of
a whitespace run. -/
def collapseAux : Bool → List Char → List Char
  | _, [] => []
  | inRun, c :: rest =>
    if isPySpace c then
      (if inRun then [] else ['-']) ++ collapseAux true rest
    else c :: collapseAux false rest

/-- Claimed segment normalization for C4: lowercase, trim, every internal
whitespace run became a single hyphen. -/
def claimedSegment (s : String) : String :=
  String.mk (collapseAux false ((pyStrip s).data.map Char.toLower))

/-- Character-level normalization of the amended C4 claim: a space becomes
a hyphen, anything else is ASCII-lowercased. -/
def amendedSegmentChar (c : Char) : Char :=
  if c = ' ' then '-' else Char.toLower c

/-- Amended segment normalization for C4: trim, then per character replace
each space by a hyphen and lowercase the rest. -/
def amendedSegment (s : String) : String :=
  String.mk ((pyStrip s).data.map amendedSegmentChar)

/-! Helper lemmas about `ContainsSub`. -/

theorem containsSub_self (s : String) : ContainsSub s s :=
  ⟨[], [], by simp⟩

theorem containsSub_left (s t sub : String) (h : ContainsSub s sub) :
    ContainsSub (s ++ t) sub := by
  obtain ⟨p, q, hpq⟩ := h
  refine ⟨p, q ++ t.data, ?_⟩
  rw [String.data_append, ← hpq]
  simp [List.append_assoc]

theorem containsSub_right (s t sub : String) (h : ContainsSub t sub) :
    ContainsSub (s ++ t) sub := by
  obtain ⟨p, q, hpq⟩ := h
  refine ⟨s.data ++ p, q, ?_⟩
  rw [String.data_append, ← hpq]
  simp [List.append_assoc]

theorem containsSub_tail_pair (pre a v : String) :
    ContainsSub ((pre ++ a) ++ v) (a ++ v) :=
  ⟨pre.data, [], by simp [String.data_append, List.append_assoc]⟩

theorem containsSub_tail_triple (pre a v b : String) :
    ContainsSub (((pre ++ a) ++ v) ++ b) ((a ++ v) ++ b) :=
  ⟨pre.data, [], by simp [String.data_append, List.append_assoc]⟩

/-- C2 (amended): a response that is not a dict with truthy `success`
(missing `success` key, `success=false`, non-dict) normalizes to the empty
list without raising; but a dict with truthy `success` and no `data` key
raises a `KeyError` instead of degrading. -/
theorem c2_normalize_nonconforming :
    (∀ r : PyVal, isSuccessResponse r = false →
      normalizeProperties r = Except.ok (PyVal.pylist [])) ∧
    (∀ fields : List (String × PyVal),
      (pyGetD fields ("success") PyVal.pynone).truthy = true →
      dictLookup fields ("data") = Option.none →
      normalizeProperties (PyVal.pydict fields) = Except.error ("KeyError: data")) := by
  constructor
  · intro r h
    simp [normalizeProperties, h]
  · intro fields hs hd
    simp [normalizeProperties, isSuccessResponse, hs, pyIndex, hd, Except.bind]

/-- C2 counterexample: on `{'success': True}` (truthy `success`, no
`data` key) the normalization step raises a `KeyError` rather than
returning the empty collection. -/
theorem c2_counterexample :
    normalizeProperties (PyVal.pydict [("success", PyVal.pybool true)])
      = Except.error ("KeyError: data") ∧
    normalizeProperties (PyVal.pydict [("success", PyVal.pybool true)])
      ≠ Except.ok (PyVal.pylist []) :=
  ⟨rfl, fun h => nomatch h⟩

/-- C2 witness: the amended theorem evaluated at `'oops'` (non-dict) and
at `{'success': 1}` (truthy non-boolean `success`, missing `data`). -/
theorem c2_witness :
    normalizeProperties (PyVal.pystr ("oops")) = Except.ok (PyVal.pylist []) ∧
    normalizeProperties (PyVal.pydict [("success", PyVal.pyint 1)])
      = Except.error ("KeyError: data") :=
  ⟨c2_normalize_nonconforming.1 (PyVal.pystr ("oops")) rfl,
   c2_normalize_nonconforming.2 [("success", PyVal.pyint 1)] rfl rfl⟩

/-- C3: when the trend extraction response is not a success envelope,
`get_location_trends` returns exactly the placeholder string and issues
no text-generation call (the recorded call trace is empty). -/
theorem c3_trends_placeholder (extract : ExtractArgs → PyVal) (gen : String → String)
    (city : String)
    (h : isSuccessResponse (extract (trendExtractArgs city)) = false) :
    getLocationTrends extract gen city
      = Except.ok ⟨[], "No price trends data available"⟩ := by
  simp [getLocationTrends, h]

/-- C3 witness: a `success=false` trend extraction response. -/
theorem c3_witness :
    getLocationTrends (fun _ => PyVal.pydict [("success", PyVal.pybool false)])
      (fun s => s) ("Dubai")
      = Except.ok ⟨[], "No price trends data available"⟩ :=
  c3_trends_placeholder _ _ _ rfl

/-- C7: each query-building step constructs exactly one search URL:
`find_properties` one property-search URL and `get_location_trends` one
area-insights URL. -/
theorem c7_single_url (city maxPrice category ptype : String) :
    (propertyExtractArgs city maxPrice category ptype).urls = [propertyUrl city ptype] ∧
    (trendExtractArgs city).urls = [trendUrl city] ∧
    (propertyExtractArgs city maxPrice category ptype).urls.length = 1 ∧
    (trendExtractArgs city).urls.length = 1 :=
  ⟨rfl, rfl, rfl, rfl⟩

/-- C8: an empty city string is rejected up front: the handler reports the
empty-city error, and the outcome is independent of the two external
services, which are therefore never consulted. -/
theorem c8_empty_city_rejected (extract : ExtractArgs → PyVal) (gen : String → String)
    (maxPrice category ptype : String) :
    runSearch extract gen ("") maxPrice category ptype = SearchOutcome.emptyCityError := by
  simp [runSearch]

/-- C9: the trend-extraction prompt is one fixed constant, independent of
the city (and so is the schema); only the URL list varies with the city. -/
theorem c9_trend_prompt_constant (c₁ c₂ : String) :
    (trendExtractArgs c₁).prompt = (trendExtractArgs c₂).prompt ∧
    (trendExtractArgs c₁).schema = (trendExtractArgs c₂).schema ∧
    (trendExtractArgs c₁).prompt = trendPrompt ∧
    (trendExtractArgs c₁).urls = [trendUrl c₁] :=
  ⟨rfl, rfl, rfl, rfl⟩

/-- C1: on a dict response with truthy `success` whose `data` holds a
`properties` list of length at most 10, normalization returns exactly
that list, and that same list is what the analysis instruction embeds
(the one recorded generation call). -/
theorem c1_normalize_identity (extract : ExtractArgs → PyVal) (gen : String → String)
    (city maxPrice category ptype : String)
    (fields dd : List (String × PyVal)) (ps : List PyVal)
    (hresp : extract (propertyExtractArgs city maxPrice category ptype) = PyVal.pydict fields)
    (hsucc : (pyGetD fields ("success") PyVal.pynone).truthy = true)
    (hdata : dictLookup fields ("data") = Option.some (PyVal.pydict dd))
    (hprops : dictLookup dd ("properties") = Option.some (PyVal.pylist ps))
    (_hlen : ps.length ≤ 10) :
    normalizeProperties (extract (propertyExtractArgs city maxPrice category ptype))
      = Except.ok (PyVal.pylist ps) ∧
    findProperties extract gen city maxPrice category ptype =
      Except.ok ⟨[analysisInstruction (PyVal.pylist ps) maxPrice category ptype],
                 gen (analysisInstruction (PyVal.pylist ps) maxPrice category ptype)⟩ := by
  have hnorm : normalizeProperties (extract (propertyExtractArgs city maxPrice category ptype))
      = Except.ok (PyVal.pylist ps) := by
    rw [hresp]
    have hcond : isSuccessResponse (PyVal.pydict fields) = true := by
      simpa [isSuccessResponse] using hsucc
    simp [normalizeProperties, hcond, pyIndex, hdata, Except.bind,
      pyGetMethod, pyGetD, hprops]
  exact ⟨hnorm, by simp [findProperties, hnorm, Except.bind]⟩

/-- C1 witness: a concrete two-element `properties` list passes through
normalization unchanged and is embedded into the analysis instruction. -/
theorem c1_witness :
    normalizeProperties
        ((fun _ => PyVal.pydict
            [("success", PyVal.pybool true),
             ("data", PyVal.pydict
               [("properties", PyVal.pylist [PyVal.pystr ("p1"), PyVal.pystr ("p2")])])])
          (propertyExtractArgs ("Dubai Marina") ("5.0") ("Residential") ("Apartments")))
      = Except.ok (PyVal.pylist [PyVal.pystr ("p1"), PyVal.pystr ("p2")]) ∧
    findProperties
        (fun _ => PyVal.pydict
          [("success", PyVal.pybool true),
           ("data", PyVal.pydict
             [("properties", PyVal.pylist [PyVal.pystr ("p1"), PyVal.pystr ("p2")])])])
        (fun s => s) ("Dubai Marina") ("5.0") ("Residential") ("Apartments")
      = Except.ok
          ⟨[analysisInstruction (PyVal.pylist [PyVal.pystr ("p1"), PyVal.pystr ("p2")])
              ("5.0") ("Residential") ("Apartments")],
           analysisInstruction (PyVal.pylist [PyVal.pystr ("p1"), PyVal.pystr ("p2")])
              ("5.0") ("Residential") ("Apartments")⟩ :=
  c1_normalize_identity
    (fun _ => PyVal.pydict
      [("success", PyVal.pybool true),
       ("data", PyVal.pydict
         [("properties", PyVal.pylist [PyVal.pystr ("p1"), PyVal.pystr ("p2")])])])
    (fun s => s) ("Dubai Marina") ("5.0") ("Residential") ("Apartments")
    [("success", PyVal.pybool true),
     ("data", PyVal.pydict
       [("properties", PyVal.pylist [PyVal.pystr ("p1"), PyVal.pystr ("p2")])])]
    [("properties", PyVal.pylist [PyVal.pystr ("p1"), PyVal.pystr ("p2")])]
    [PyVal.pystr ("p1"), PyVal.pystr ("p2")]
    rfl rfl rfl rfl (by decide)

/-- C6 (amended): whenever normalization does not raise, `find_properties`
issues exactly one generation call and returns its content — in
particular on any non-success response the empty list is embedded and the
call is still made; but a truthy-success dict lacking `data` raises
before any generation call. -/
theorem c6_single_generation_call (extract : ExtractArgs → PyVal) (gen : String → String)
    (city maxPrice category ptype : String) :
    (∀ ps : PyVal,
      normalizeProperties (extract (propertyExtractArgs city maxPrice category ptype))
        = Except.ok ps →
      findProperties extract gen city maxPrice category ptype =
        Except.ok ⟨[analysisInstruction ps maxPrice category ptype],
                   gen (analysisInstruction ps maxPrice category ptype)⟩) ∧
    (isSuccessResponse (extract (propertyExtractArgs city maxPrice category ptype)) = false →
      findProperties extract gen city maxPrice category ptype =
        Except.ok ⟨[analysisInstruction (PyVal.pylist []) maxPrice category ptype],
                   gen (analysisInstruction (PyVal.pylist []) maxPrice category ptype)⟩) := by
  constructor
  · intro ps hnorm
    simp [findProperties, hnorm, Except.bind]
  · intro h
    simp [findProperties, normalizeProperties, h, Except.bind]

/-- C6 counterexample: on `{'success': True}` (no `data` key) the call
raises a `KeyError` before reaching the text-generation capability, so
not every call issues a generation request and returns its content. -/
theorem c6_counterexample :
    findProperties (fun _ => PyVal.pydict [("success", PyVal.pybool true)]) (fun s => s)
      ("Dubai") ("5.0") ("Residential") ("Apartments")
      = Except.error ("KeyError: data") :=
  rfl

/-- C6 witness: on a `success=false` response the generation call is
still made, with the empty list embedded, and its content returned. -/
theorem c6_witness :
    findProperties (fun _ => PyVal.pydict [("success", PyVal.pybool false)]) (fun s => s)
      ("Dubai") ("5.0") ("Residential") ("Apartments")
      = Except.ok
          ⟨[analysisInstruction (PyVal.pylist []) ("5.0") ("Residential") ("Apartments")],
           analysisInstruction (PyVal.pylist []) ("5.0") ("Residential") ("Apartments")⟩ :=
  (c6_single_generation_call _ _ _ _ _ _).2 rfl

/-- C10: the success branch of both pipelines is taken exactly when the
response is a dict with truthy `success`: a truthy non-boolean `success`
(a non-empty string) counts as success, a non-dict (such as a typed
response object) counts as failure, and on the failure branch the
property pipeline degrades to the empty list while the trend pipeline
returns the placeholder. -/
theorem c10_success_branch_iff :
    (∀ r : PyVal, isSuccessResponse r = true ↔ isSuccessEnvelope r) ∧
    isSuccessResponse (PyVal.pydict [("success", PyVal.pystr ("yes"))]) = true ∧
    (∀ ty : String, isSuccessResponse (PyVal.pyobj ty) = false) ∧
    (∀ r : PyVal, isSuccessResponse r = false →
      normalizeProperties r = Except.ok (PyVal.pylist []) ∧
      ∀ (gen : String → String) (city : String),
        getLocationTrends (fun _ => r) gen city
          = Except.ok ⟨[], "No price trends data available"⟩) := by
  refine ⟨?_, rfl, fun ty => rfl, ?_⟩
  · intro r
    constructor
    · intro h
      cases r with
      | pynone => exact nomatch h
      | pybool b => exact nomatch h
      | pyint n => exact nomatch h
      | pystr s => exact nomatch h
      | pylist l => exact nomatch h
      | pydict fields => exact ⟨fields, rfl, h⟩
      | pyobj t => exact nomatch h
    · rintro ⟨fields, rfl, ht⟩
      exact ht
  · intro r h
    refine ⟨by simp [normalizeProperties, h], fun gen city => by simp [getLocationTrends, h]⟩

/-- C10 witness: a typed (non-dict) response object takes the failure
branch in both pipelines. -/
theorem c10_witness :
    normalizeProperties (PyVal.pyobj ("FirecrawlResponse")) = Except.ok (PyVal.pylist []) ∧
    getLocationTrends (fun _ => PyVal.pyobj ("FirecrawlResponse")) (fun s => s) ("Dubai")
      = Except.ok ⟨[], "No price trends data available"⟩ := by
  have h := c10_success_branch_iff.2.2.2 (PyVal.pyobj ("FirecrawlResponse")) rfl
  exact ⟨h.1, h.2 (fun s => s) ("Dubai")⟩

/-- ASCII lowering never produces a space from a non-space character. -/
theorem toLower_ne_space {c : Char} (hc : c ≠ ' ') : Char.toLower c ≠ ' ' := by
  show (if c.toNat ≥ 65 ∧ c.toNat ≤ 90 then Char.ofNat (c.toNat + 32) else c) ≠ ' '
  by_cases h : c.toNat ≥ 65 ∧ c.toNat ≤ 90
  · rw [if_pos h]
    obtain ⟨h1, h2⟩ := h
    intro heq
    obtain ⟨n, hn⟩ : ∃ n, c.toNat = n := ⟨_, rfl⟩
    rw [hn] at h1 h2 heq
    interval_cases n <;> exact absurd heq (by decide)
  · rw [if_neg h]
    exact hc

/-- The composed per-character action of the code (`lower` then replace
spaces by hyphens) agrees with the amended claim's per-character
normalization. -/
theorem replace_lower_eq_amended (c : Char) :
    (if Char.toLower c == ' ' then '-' else Char.toLower c) = amendedSegmentChar c := by
  by_cases hc : c = ' '
  · subst hc; decide
  · have hl : Char.toLower c ≠ ' ' := toLower_ne_space hc
    simp [amendedSegmentChar, hc, hl]

/-- C4 (amended): the query builders normalize `city` and `propertyType`
by trimming, ASCII-lowercasing, and replacing each space character with a
hyphen (non-space whitespace is left in place and a run of k spaces
yields k hyphens); in particular Business Bay and Apartments yield the
segments business-bay and apartments inside the built URLs. -/
theorem c4_segment_normalization :
    (∀ s : String, formatSegment s = amendedSegment s) ∧
    formatSegment ("Business Bay") = "business-bay" ∧
    formatSegment ("Apartments") = "apartments" ∧
    propertyUrls ("Business Bay") ("Apartments")
      = ["https://www.propertyfinder.ae/en/buy/dubai/apartments-for-sale-business-bay.html"] ∧
    trendUrls ("Business Bay")
      = ["https://www.propertyfinder.ae/en/area-insights/dubai/business-bay"] := by
  refine ⟨?_, by decide, by decide, by decide, by decide⟩
  intro s
  show String.mk (((pyStrip s).data.map Char.toLower).map fun c => if c == ' ' then '-' else c)
      = String.mk ((pyStrip s).data.map amendedSegmentChar)
  rw [List.map_map]
  have hfun : ((fun c => if c == ' ' then '-' else c) ∘ Char.toLower) = amendedSegmentChar :=
    funext fun c => replace_lower_eq_amended c
  rw [hfun]

/-- C4 counterexample: on the input with an internal tab, the code's
normalization leaves the tab in place while the claimed normalization
(every internal whitespace run becomes a single hyphen) would produce a
hyphen, so the claim fails for this input string. -/
theorem c4_counterexample :
    formatSegment ("a\tb") = "a\tb" ∧
    claimedSegment ("a\tb") = "a-b" ∧
    formatSegment ("a\tb") ≠ claimedSegment ("a\tb") ∧
    formatSegment ("a  b") = "a--b" ∧
    claimedSegment ("a  b") = "a-b" := by
  refine ⟨by decide, by decide, by decide, by decide, by decide⟩

/-- C5: the property-extraction prompt spells out the 3-to-10 result
cardinality, the category, the type, the city, the price ceiling, and the
instruction to mix results across the supplied URLs; the trend prompt
requires at least 5-10 localities including both premium and affordable
areas, and states no maximum. -/
theorem c5_prompt_constraints (city maxPrice category ptype : String) :
    ContainsSub (propertyPrompt city maxPrice category ptype)
      ("Return data for at least 3 different properties. MAXIMUM 10") ∧
    ContainsSub (propertyPrompt city maxPrice category ptype)
      ("Property Category: " ++ category) ∧
    ContainsSub (propertyPrompt city maxPrice category ptype)
      ("Property Type: " ++ ptype) ∧
    ContainsSub (propertyPrompt city maxPrice category ptype)
      ("Location: " ++ city) ∧
    ContainsSub (propertyPrompt city maxPrice category ptype)
      ("Maximum Price: " ++ maxPrice ++ " Millions") ∧
    ContainsSub (propertyPrompt city maxPrice category ptype)
      ("must mix the property list from all urls") ∧
    ContainsSub trendPrompt ("at least 5-10 different localities") ∧
    ContainsSub trendPrompt ("Include both premium and affordable areas") ∧
    ¬ ContainsSub trendPrompt ("maximum") ∧
    ¬ ContainsSub trendPrompt ("Maximum") ∧
    ¬ ContainsSub trendPrompt ("MAXIMUM") := by
  refine ⟨?_, ?_, ?_, ?_, ?_, ?_, ?_, ?_, by decide, by decide, by decide⟩
  · unfold propertyPrompt
    apply containsSub_left
    apply containsSub_left
    apply containsSub_right
    decide
  · unfold propertyPrompt
    iterate 14 apply containsSub_left
    exact containsSub_tail_pair _ _ _
  · unfold propertyPrompt
    iterate 11 apply containsSub_left
    exact containsSub_tail_pair _ _ _
  · unfold propertyPrompt
    iterate 8 apply containsSub_left
    exact containsSub_tail_pair _ _ _
  · unfold propertyPrompt
    iterate 4 apply containsSub_left
    exact containsSub_tail_triple _ _ _ _
  · unfold propertyPrompt
    apply containsSub_left
    apply containsSub_right
    exact containsSub_self _
  · unfold trendPrompt
    iterate 3 apply containsSub_left
    apply containsSub_right
    decide
  · unfold trendPrompt
    apply containsSub_left
    apply containsSub_right
    exact containsSub_self _
